import Mathlib

/-
  Verification of the network supervisor of tschenggins-laempli (ng/src/wifi.c).

  The embedding models the supervisor task sWifiTask, the HTTP bootstrap
  sWifiConnectBackend and the connection pump sWifiHandleConnection as pure
  functions over explicit environments: every call into the network stack
  (DNS, connect, write, recv) is an input supplied by the environment, and
  every observable effect (netconn lifecycle calls, indicator signals,
  protocol-handler calls) is recorded in the result.

  C strings are modelled as Lean strings / lists of characters; the received
  network buffer is treated as NUL-free and NUL-terminated at its reported
  length (the spec's note (b) assumption).  Machine integers: osTime values
  are Nat, and the uint32 subtraction in the FAIL state is taken mod 2^32.
-/

/-! ## C string helpers (strstr, atoi, strncmp counterparts) -/

/-- Index of the first occurrence of pat in hay (counterpart of C strstr,
returning an index instead of a pointer). -/
def strstrIdx : List Char → List Char → Option Nat
  | [], pat => if pat = [] then some 0 else none
  | h :: t, pat =>
    if List.isPrefixOf pat (h :: t) then some 0
    else (strstrIdx t pat).map (fun i => i + 1)

/-- Decimal digit accumulator: consumes leading digits, like the digit loop
of C atoi. -/
def digitsAcc : List Char → Nat → Nat
  | c :: t, acc => if c.isDigit then digitsAcc t (acc * 10 + (c.toNat - 48)) else acc
  | [], acc => acc

/-- Characters skipped by C atoi before the number. -/
def isSpaceC (c : Char) : Bool :=
  c = ' ' || c = '\t' || c = '\n' || c = '\r' || c = '\x0b' || c = '\x0c'

/-- Counterpart of C atoi: skip whitespace, optional sign, then digits. -/
def atoiInt (cs : List Char) : Int :=
  match cs.dropWhile isSpaceC with
  | '-' :: t => - Int.ofNat (digitsAcc t 0)
  | '+' :: t => Int.ofNat (digitsAcc t 0)
  | t => Int.ofNat (digitsAcc t 0)

/-- Split a list at the first occurrence of c: some (before, after), with c
removed; none when c does not occur. -/
def splitFirst (c : Char) : List Char → Option (List Char × List Char)
  | [] => none
  | h :: t =>
    if h = c then some ([], t)
    else (splitFirst c t).map (fun p => (h :: p.1, p.2))

def crlfToks : List Char := ['\r', '\n']

def crlfCrlf : List Char := ['\r', '\n', '\r', '\n']

/-- The 8 characters actually compared by strncmp(firstLineStart, "HTTP/1.1 ", 8)
in wifi.c line 258: the count 8 stops before the trailing space. -/
def httpSig : List Char := ['H', 'T', 'T', 'P', '/', '1', '.', '1']

def httpPre : List Char := "http://".toList

def httpsPre : List Char := "https://".toList

/-! ## URL decomposition (reqParamsFromUrl)

The function reqParamsFromUrl lives in stuff.c, which is not among the
sources of this repository snapshot; only its call site in wifi.c is.  It is
therefore modelled from the spec. -/

structure UrlParts where
  host : String
  path : String
  query : String
  auth : Option String
  https : Bool
  port : Nat
deriving DecidableEq, Repr

/-- Scheme recognition: http or https, anything else is a failure
(spec section 4.2: fails if the scheme is neither http nor https). -/
def schemeSplit (cs : List Char) : Option (Bool × List Char) :=
  if List.isPrefixOf httpPre cs then some (false, cs.drop 7)
  else if List.isPrefixOf httpsPre cs then some (true, cs.drop 8)
  else none

/-- Split the part after the scheme into authority and the rest after the
first slash (the path-with-query). -/
def authorityPath (cs : List Char) : List Char × List Char :=
  match splitFirst '/' cs with
  | some p => p
  | none => (cs, [])

/-- Recognize a user:pass@ authority prefix (spec section 4.2) and return it
separately. -/
def authSplit (cs : List Char) : Option String × List Char :=
  match splitFirst '@' cs with
  | some p => (some (String.mk p.1), p.2)
  | none => (none, cs)

/-- Split host from an explicit :port; default 80 for http, 443 for https
(spec section 4.2). -/
def hostPortSplit (https : Bool) (cs : List Char) : List Char × Nat :=
  match splitFirst ':' cs with
  | some p => (p.1, digitsAcc p.2 0)
  | none => (cs, if https then 443 else 80)

/-- The query slice: the part of the path-with-query after the first
question mark, empty when there is none. -/
def queryOf (pathRest : List Char) : String :=
  match splitFirst '?' pathRest with
  | some p => String.mk p.2
  | none => ""

/-- Modelled from the spec: reqParamsFromUrl of stuff.c, which is not among
the sources here.  Spec section 4.2 gives the output {host, path, query,
auth, is_https, port} with defaults port 80/443, a recognized user:pass@
authority, and failure on an unknown scheme or empty host.  Spec sections
4.4 and 6 state that the request line "POST /<path> HTTP/1.1" carries the
query after a question mark while the same query is also the body, so the
path slice retains its query suffix and the query slice points into it. -/
def reqParamsFromUrl (url : String) : Option UrlParts :=
  match schemeSplit url.toList with
  | none => none
  | some (https, rest) =>
    let pr := authorityPath rest
    let ah := authSplit pr.1
    let hp := hostPortSplit https ah.2
    if hp.1 = [] then none
    else
      some { host := String.mk hp.1, path := String.mk pr.2, query := queryOf pr.2,
             auth := ah.1, https := https, port := hp.2 }

/-- The path slice up to (excluding) its first question mark. -/
def pathBeforeQuery (p : UrlParts) : String :=
  match splitFirst '?' p.path.toList with
  | some pr => String.mk pr.1
  | none => p.path

/-! ## HTTP bootstrap (sWifiConnectBackend, wifi.c lines 136-302) -/

/-- The outbound POST request assembled by the snprintf of wifi.c lines
189-201.  The User-Agent token FF_PROGRAM "/" FF_BUILDVER is build-time
configuration, kept as the parameter ua; a NULL auth becomes the empty
string as in the C conditional. -/
def mkRequest (ua : String) (p : UrlParts) : String :=
  "POST /" ++ p.path ++ " HTTP/1.1\r\n" ++
  "Host: " ++ p.host ++ "\r\n" ++
  "Authorization: Basic " ++ (p.auth.getD "") ++ "\r\n" ++
  "User-Agent: " ++ ua ++ "\r\n" ++
  "Content-Length: " ++ toString p.query.length ++ "\r\n" ++
  "\r\n" ++
  p.query

/-- The error exits of the bootstrap, one per ERROR path in wifi.c. -/
inductive BErr
  | badUrl | dnsFail | connectFail | writeFail | timeout | readErr
  | netbufErr | notHttp | badStatus | noBody | protoRejected
deriving DecidableEq, Repr

/-- One netconn_recv outcome during the bootstrap header wait: would-block,
a read error, or a delivered buffer (with the netbuf_data outcome for it). -/
inductive RecvEvent
  | wouldBlock
  | recvErr
  | dataBuf (payload : String) (netbufOk : Bool)
deriving DecidableEq, Repr

/-- The HTTP response check of wifi.c lines 254-282: first line must contain
CRLF and pass the 8-character strncmp against "HTTP/1.1 "; the status code
is atoi at byte offset 9 and must be 200; then the header terminator CRLFCRLF
is located with strstr and at least 10 bytes must remain from it (strlen at
the terminator pointer); the returned slice starts at the terminator and its
length is len minus the terminator offset. -/
def parseResponse (resp : String) : Except BErr (String × Nat) :=
  match strstrIdx resp.toList crlfToks with
  | none => Except.error BErr.notHttp
  | some i =>
    if resp.toList.take 8 ≠ httpSig then Except.error BErr.notHttp
    else if atoiInt (resp.toList.drop 9) ≠ 200 then Except.error BErr.badStatus
    else
      match strstrIdx (resp.toList.drop (i + 2)) crlfCrlf with
      | none => Except.error BErr.noBody
      | some j =>
        if ((resp.toList.drop (i + 2)).drop j).length < 10 then Except.error BErr.noBody
        else Except.ok (String.mk ((resp.toList.drop (i + 2)).drop j),
          ((resp.toList.drop (i + 2)).drop j).length)

/-- The receive loop of wifi.c lines 216-283: the budget t mirrors
helloTimeout (initially 500); each would-block decrements it and a decrement
below zero is the response timeout; the first delivered buffer is parsed and
the loop always ends there; backendConnect is called on the parsed slice.
Returns (error?, slice handed to backendConnect); none when the modelled
event list is exhausted while the loop would still be polling. -/
def recvLoop (bc : String → Nat → Bool) :
    List RecvEvent → Nat → Option (Option BErr × Option (String × Nat))
  | [], _ => none
  | RecvEvent.wouldBlock :: rest, t =>
    if t = 0 then some (some BErr.timeout, none) else recvLoop bc rest (t - 1)
  | RecvEvent.recvErr :: _, _ => some (some BErr.readErr, none)
  | RecvEvent.dataBuf s ok :: _, _ =>
    if !ok then some (some BErr.netbufErr, none)
    else
      match parseResponse s with
      | Except.error e => some (some e, none)
      | Except.ok bn =>
        if bc bn.1 bn.2 then some (none, some bn) else some (some BErr.protoRejected, some bn)

/-- Environment of one bootstrap attempt: the assembled URL, the build-time
User-Agent, the DNS / connect / write outcomes, the recv outcomes and the
backendConnect verdict. -/
structure BootstrapEnv where
  url : String
  userAgent : String
  dnsOk : Bool
  connectOk : Bool
  writeOk : Bool
  recvEvents : List RecvEvent
  bConnect : String → Nat → Bool

/-- Observable outcome of one bootstrap attempt: the return value, which
error path was taken, which netconn lifecycle calls happened, the written
request and the slice handed to backendConnect. -/
structure BootstrapResult where
  success : Bool
  err : Option BErr
  connCreated : Bool
  connClosed : Bool
  connDeleted : Bool
  connShutdown : Bool
  request : Option String
  handed : Option (String × Nat)
deriving DecidableEq, Repr

/-- A failure before netconn_new: no connection and no request exist. -/
def noConnRes (e : BErr) : BootstrapResult :=
  { success := false, err := some e, connCreated := false, connClosed := false,
    connDeleted := false, connShutdown := false, request := none, handed := none }

/-- The part of the bootstrap after a successful write (wifi.c lines
212-301): on any failure out of the receive loop the connection is closed
and deleted (lines 296-301); on success it is only shut down for transmit
(line 292) and stays owned. -/
def bootRecvPhase (bc : String → Nat → Bool) (evs : List RecvEvent) (req : String) :
    Option BootstrapResult :=
  match recvLoop bc evs 500 with
  | none => none
  | some (some e, h) =>
    some { success := false, err := some e, connCreated := true, connClosed := true,
           connDeleted := true, connShutdown := false, request := some req, handed := h }
  | some (none, h) =>
    some { success := true, err := none, connCreated := true, connClosed := false,
           connDeleted := false, connShutdown := true, request := some req, handed := h }

/-- sWifiConnectBackend, wifi.c lines 136-302.  Faithful effect record of
each exit: a bad URL or DNS failure returns before netconn_new; a connect
failure returns with the new connection neither closed nor deleted (lines
177-183); a write failure deletes the connection without a separate close
(line 207); later failures close and delete it; success keeps it. -/
def sWifiConnectBackend (env : BootstrapEnv) : Option BootstrapResult :=
  match reqParamsFromUrl env.url with
  | none => some (noConnRes BErr.badUrl)
  | some parts =>
    if env.dnsOk then
      if env.connectOk then
        if env.writeOk then
          bootRecvPhase env.bConnect env.recvEvents (mkRequest env.userAgent parts)
        else
          some { success := false, err := some BErr.writeFail, connCreated := true,
                 connClosed := false, connDeleted := true, connShutdown := false,
                 request := some (mkRequest env.userAgent parts), handed := none }
      else
        some { noConnRes BErr.connectFail with connCreated := true }
    else
      some (noConnRes BErr.dnsFail)

/-! ## Connection pump (sWifiHandleConnection, wifi.c lines 306-370) -/

/-- The three-valued verdict of backendHandle. -/
inductive Verdict
  | okay | fail | reconnect
deriving DecidableEq, Repr

/-- One iteration outcome of the pump loop: backendIsOkay false at the loop
top, a would-block recv, a recv error, a netbuf_data failure, or a delivered
chunk with its backendHandle verdict. -/
inductive PumpEvent
  | notOkay
  | wouldBlock
  | recvErr
  | netbufErr
  | chunk (v : Verdict)
deriving DecidableEq, Repr

/-- Calls into the backend protocol handler recorded by the pump. -/
inductive ProtoCall
  | handleCall (v : Verdict)
  | disconnectCall
deriving DecidableEq, Repr

/-- Events on which the pump loop keeps going. -/
def PumpEvent.neutral : PumpEvent → Bool
  | PumpEvent.wouldBlock => true
  | PumpEvent.chunk Verdict.okay => true
  | _ => false

/-- Protocol calls made while consuming a run of neutral events. -/
def neutralTrace : List PumpEvent → List ProtoCall
  | [] => []
  | PumpEvent.chunk Verdict.okay :: r => ProtoCall.handleCall Verdict.okay :: neutralTrace r
  | _ :: r => neutralTrace r

/-- The pump loop of wifi.c lines 310-366 plus the unconditional
backendDisconnect of line 368: returns the res flag (true forces immediate
reconnect) and the protocol-handler call trace; none when the modelled event
list is exhausted while the loop would still be running. -/
def pumpRun : List PumpEvent → List ProtoCall → Option (Bool × List ProtoCall)
  | [], _ => none
  | PumpEvent.notOkay :: _, tr => some (false, tr ++ [ProtoCall.disconnectCall])
  | PumpEvent.wouldBlock :: rest, tr => pumpRun rest tr
  | PumpEvent.recvErr :: _, tr => some (false, tr ++ [ProtoCall.disconnectCall])
  | PumpEvent.netbufErr :: _, tr => some (false, tr ++ [ProtoCall.disconnectCall])
  | PumpEvent.chunk Verdict.okay :: rest, tr => pumpRun rest (tr ++ [ProtoCall.handleCall Verdict.okay])
  | PumpEvent.chunk Verdict.fail :: _, tr =>
    some (false, tr ++ [ProtoCall.handleCall Verdict.fail, ProtoCall.disconnectCall])
  | PumpEvent.chunk Verdict.reconnect :: _, tr =>
    some (true, tr ++ [ProtoCall.handleCall Verdict.reconnect, ProtoCall.disconnectCall])

/-- sWifiHandleConnection, wifi.c lines 306-370.  Note: no netconn call of
any kind appears in its body, so the connection handle is untouched on every
exit path. -/
def sWifiHandleConnection (evs : List PumpEvent) : Option (Bool × List ProtoCall) :=
  pumpRun evs []

/-! ## Supervisor state machine (sWifiTask, wifi.c lines 383-487) -/

inductive WifiState
  | offline | online | connected | fail
deriving DecidableEq, Repr

/-- Audio cues of statusNoise. -/
inductive Noise
  | abort | online | fail | tick
deriving DecidableEq, Repr

/-- LED modes of statusLed. -/
inductive Led
  | update | heartbeat | fail
deriving DecidableEq, Repr

/-- One indicator emission. -/
inductive Signal
  | noise (n : Noise)
  | led (l : Led)
deriving DecidableEq, Repr

/-- Which backoff constant the FAIL state picked. -/
inductive Backoff
  | short | slow
deriving DecidableEq, Repr

/-- Supervisor-owned state across iterations: the state variable, the static
lastFail of the FAIL case (zero-initialised at boot), and the number of live
(created, never deleted) netconn handles the supervisor has made. -/
structure SupSt where
  state : WifiState
  lastFail : Nat
  connLive : Nat
deriving DecidableEq, Repr

/-- Modelled from the spec: the constants BACKEND_RECONNECT_INTERVAL,
BACKEND_RECONNECT_INTERVAL_SLOW and BACKEND_STABLE_CONN_THRS come from
backend.h, which is not among the sources here; spec section 4.6 names them
but fixes no values, so they stay abstract parameters (the threshold in
seconds, as the C comparison multiplies it by 1000). -/
structure BackendCfg where
  reconnInterval : Nat
  reconnIntervalSlow : Nat
  stableConnThrs : Nat
deriving DecidableEq, Repr

def u32 : Nat := 4294967296

/-- Wrapping uint32 subtraction, as in the C expression (now - lastFail). -/
def u32sub (a b : Nat) : Nat := (a + u32 - b % u32) % u32

/-- Environment of one iteration of the sWifiTask loop. -/
structure StepEnv where
  waitOk : Bool
  benv : BootstrapEnv
  pumpEvents : List PumpEvent
  linkOnline : Bool
  now : Nat

/-- Observable outcome of one iteration: the new supervisor state, the
indicator signals emitted during the state body, and (for the FAIL body)
which backoff was chosen and how many seconds it waits, plus the bootstrap
and pump sub-results for inspection. -/
structure StepOut where
  sup : SupSt
  signals : List Signal
  chosen : Option Backoff
  waitSecs : Option Nat
  pump : Option (Bool × List ProtoCall)
  boot : Option BootstrapResult
deriving DecidableEq, Repr

/-- WIFI_STATE_OFFLINE body, wifi.c lines 406-421: ABORT cue and UPDATE LED
are emitted on entry, before the station wait, whatever its outcome. -/
def stepOffline (waitOk : Bool) (s : SupSt) : StepOut :=
  { sup := { s with state := if waitOk then WifiState.online else WifiState.fail },
    signals := [Signal.noise Noise.abort, Signal.led Led.update],
    chosen := none, waitSecs := none, pump := none, boot := none }

/-- WIFI_STATE_ONLINE body, wifi.c lines 424-436: run the bootstrap; the
live-handle count changes by its created/deleted record. -/
def stepOnline (r : BootstrapResult) (s : SupSt) : StepOut :=
  { sup := { s with
             state := (if r.success then WifiState.connected else WifiState.fail),
             connLive := (s.connLive + (if r.connCreated then 1 else 0) -
               (if r.connDeleted then 1 else 0)) },
    signals := [], chosen := none, waitSecs := none, pump := none, boot := some r }

/-- WIFI_STATE_CONNECTED body, wifi.c lines 439-453: ONLINE cue and
HEARTBEAT LED on entry; after the pump, res true goes to ONLINE or OFFLINE
by sWifiIsOnline, res false to FAIL.  No netconn call occurs here, so the
live-handle count is unchanged. -/
def stepConnected (pr : Bool × List ProtoCall) (link : Bool) (s : SupSt) : StepOut :=
  { sup := { s with
             state := (if pr.1 then (if link then WifiState.online else WifiState.offline)
               else WifiState.fail) },
    signals := [Signal.noise Noise.online, Signal.led Led.heartbeat],
    chosen := none, waitSecs := none, pump := some pr, boot := none }

/-- WIFI_STATE_FAIL body, wifi.c lines 456-482: pick the backoff by the
strict comparison (now - lastFail) > 1000 * BACKEND_STABLE_CONN_THRS, update
lastFail, emit FAIL cue and FAIL LED, tick during the last 3 seconds, then
go to ONLINE or OFFLINE by sWifiIsOnline. -/
def stepFail (cfg : BackendCfg) (now : Nat) (link : Bool) (s : SupSt) : StepOut :=
  let stable := 1000 * cfg.stableConnThrs < u32sub now s.lastFail
  let w := if stable then cfg.reconnInterval else cfg.reconnIntervalSlow
  { sup := { s with
             state := (if link then WifiState.online else WifiState.offline),
             lastFail := now },
    signals := [Signal.noise Noise.fail, Signal.led Led.fail] ++
      List.replicate (min w 3) (Signal.noise Noise.tick),
    chosen := some (if stable then Backoff.short else Backoff.slow),
    waitSecs := some w, pump := none, boot := none }

/-- One iteration of the sWifiTask switch (wifi.c lines 395-486); none when
an inner loop ran out of modelled events. -/
def wifiStep (cfg : BackendCfg) (env : StepEnv) (s : SupSt) : Option StepOut :=
  match s.state with
  | WifiState.offline => some (stepOffline env.waitOk s)
  | WifiState.online => (sWifiConnectBackend env.benv).map (fun r => stepOnline r s)
  | WifiState.connected =>
    (sWifiHandleConnection env.pumpEvents).map (fun pr => stepConnected pr env.linkOnline s)
  | WifiState.fail => some (stepFail cfg env.now env.linkOnline s)

/-- Boot-time state: the state variable starts at WIFI_STATE_OFFLINE and the
static lastFail is zero-initialised; no connection exists. -/
def initSup : SupSt := { state := WifiState.offline, lastFail := 0, connLive := 0 }

/-! ## Concrete inputs used by the claim instances -/

/-- A backendConnect that accepts everything. -/
def bcTrue : String → Nat → Bool := fun _ _ => true

/-- A fully healthy bootstrap environment around a typical assembled URL;
the receive events vary per scenario. -/
def envBase : BootstrapEnv :=
  { url := "http://h/p?q=1", userAgent := "ua", dnsOk := true, connectOk := true,
    writeOk := true, recvEvents := [], bConnect := bcTrue }

/-- envBase with a given single delivered buffer. -/
def envStd (resp : String) : BootstrapEnv :=
  { envBase with recvEvents := [RecvEvent.dataBuf resp true] }

/-- envBase with a given receive event list. -/
def envEvents (evs : List RecvEvent) : BootstrapEnv :=
  { envBase with recvEvents := evs }

/-- Decomposition of the URL of envBase. -/
def partsStd : UrlParts :=
  { host := "h", path := "p?q=1", query := "q=1", auth := none, https := false, port := 80 }

/-- The request written for envBase. -/
def reqStd : String := mkRequest "ua" partsStd

/-- The happy-path response of spec scenario 1. -/
def respHappy : String := "HTTP/1.1 200 OK\r\nServer: X\r\n\r\n\x7b\"hello\":1\x7d"

/-- The slice of respHappy that starts at the header terminator. -/
def bodyHappy : String := "\r\n\r\n\x7b\"hello\":1\x7d"

/-- A response whose first line passes the 8-character check but does not
start with the 9-character prefix "HTTP/1.1 " (a tab instead of the space). -/
def respTab : String := "HTTP/1.1\t200 OK\r\nServer: X\r\n\r\nAAAAAAAAAAAA"

/-- A non-200 response (spec scenario 3 flavour). -/
def respNF : String := "HTTP/1.1 404 NF\r\nServer: X\r\n\r\nAAAAAAAAAAAA"

/-- Arbitrary small backend configuration for concrete runs. -/
def cfgA : BackendCfg := { reconnInterval := 5, reconnIntervalSlow := 60, stableConnThrs := 5 }

/-- A step environment whose fields are all benign; pieces are overridden
per scenario. -/
def stepEnvBase : StepEnv :=
  { waitOk := true, benv := envBase, pumpEvents := [], linkOnline := true, now := 0 }

/-- envBase with the TCP write failing: the bootstrap stops right after
assembling the request. -/
def envC3w : BootstrapEnv := { envBase with writeOk := false }

/-- The bootstrap outcome for envC3w. -/
def rWriteFail : BootstrapResult :=
  { success := false, err := some BErr.writeFail, connCreated := true, connClosed := false,
    connDeleted := true, connShutdown := false, request := some reqStd, handed := none }

/-- Step environment entering a state body at a given osTime. -/
def envFailAt (n : Nat) : StepEnv := { stepEnvBase with now := n }

/-- Step environment whose bootstrap fails at the DNS lookup. -/
def envDnsFail : StepEnv := { stepEnvBase with benv := { envBase with dnsOk := false } }

/-! ## General lemmas about the string helpers -/

lemma strMk_toList (l : List Char) : (String.mk l).toList = l := rfl

lemma strToList_append (a b : String) : (a ++ b).toList = a.toList ++ b.toList := by
  cases a; cases b; rfl

lemma strEq_of_toList {a b : String} (h : a.toList = b.toList) : a = b := by
  cases a; cases b; exact congrArg String.mk h

lemma splitFirst_eq {c : Char} :
    ∀ {l a b : List Char}, splitFirst c l = some (a, b) → l = a ++ c :: b ∧ c ∉ a := by
  intro l
  induction l with
  | nil => intro a b h; cases h
  | cons hd t ih =>
    intro a b h
    by_cases hc : hd = c
    · subst hc
      simp only [splitFirst, if_pos rfl] at h
      simp at h
      obtain ⟨ha, hb⟩ := h
      subst ha; subst hb
      simp
    · simp only [splitFirst, if_neg hc, Option.map_eq_some'] at h
      obtain ⟨p, hp, hmk⟩ := h
      simp at hmk
      obtain ⟨h1, h2⟩ := hmk
      subst h1; subst h2
      obtain ⟨ht, hn⟩ := ih hp
      constructor
      · rw [ht]; rfl
      · intro hmem
        rcases List.mem_cons.mp hmem with h | h
        · exact hc h.symm
        · exact hn h

lemma strstrIdx_isPrefix :
    ∀ {l pat : List Char} {j : Nat}, strstrIdx l pat = some j → List.IsPrefix pat (l.drop j) := by
  intro l
  induction l with
  | nil =>
    intro pat j h
    simp only [strstrIdx] at h
    split at h
    · rename_i hp
      subst hp
      cases h
      simp
    · cases h
  | cons hd t ih =>
    intro pat j h
    simp only [strstrIdx] at h
    split at h
    · rename_i hp
      cases h
      simpa using List.isPrefixOf_iff_prefix.mp hp
    · simp only [Option.map_eq_some'] at h
      obtain ⟨i, hi, hji⟩ := h
      subst hji
      simpa using ih hi

/-! ## Lemmas about the response parse -/

lemma parse_ok_shape {resp b : String} {n : Nat}
    (h : parseResponse resp = Except.ok (b, n)) :
    n = b.length ∧ 10 ≤ b.length ∧ b.toList.take 4 = crlfCrlf ∧
      List.IsSuffix b.toList resp.toList := by
  unfold parseResponse at h
  split at h
  · cases h
  · rename_i i hi
    split at h
    · cases h
    · rename_i hne8
      split at h
      · cases h
      · rename_i h200
        split at h
        · cases h
        · rename_i j hj
          split at h
          · cases h
          · rename_i hlen
            simp only [Except.ok.injEq, Prod.mk.injEq] at h
            obtain ⟨hb, hn⟩ := h
            subst hb
            refine ⟨?_, ?_, ?_, ?_⟩
            · rw [← hn]; rfl
            · have hlb : (String.mk ((resp.toList.drop (i + 2)).drop j)).length =
                  ((resp.toList.drop (i + 2)).drop j).length := rfl
              omega
            · obtain ⟨t, ht⟩ := strstrIdx_isPrefix hj
              rw [strMk_toList, ← ht]
              have h4 : crlfCrlf.length = 4 := rfl
              rw [← h4, List.take_left]
            · rw [strMk_toList, List.drop_drop]
              exact List.drop_suffix _ _

lemma parse_notHttp_iff (resp : String) :
    parseResponse resp = Except.error BErr.notHttp ↔
      (strstrIdx resp.toList crlfToks = none ∨ resp.toList.take 8 ≠ httpSig) := by
  constructor
  · intro h
    unfold parseResponse at h
    split at h
    · rename_i hnone
      exact Or.inl hnone
    · split at h
      · rename_i hne
        exact Or.inr hne
      · split at h
        · cases h
        · split at h
          · cases h
          · split at h
            · cases h
            · cases h
  · intro h
    unfold parseResponse
    rcases h with hnone | h8
    · rw [hnone]
    · cases hx : strstrIdx resp.toList crlfToks with
      | none => rfl
      | some i =>
        dsimp only
        rw [if_pos h8]

lemma parse_badStatus {resp : String} {i : Nat}
    (h1 : strstrIdx resp.toList crlfToks = some i)
    (h2 : resp.toList.take 8 = httpSig)
    (h3 : atoiInt (resp.toList.drop 9) ≠ 200) :
    parseResponse resp = Except.error BErr.badStatus := by
  unfold parseResponse
  rw [h1]
  have hne : ¬ (resp.toList.take 8 ≠ httpSig) := by
    intro hcon
    exact hcon h2
  dsimp only
  rw [if_neg hne, if_pos h3]

/-! ## Lemmas about the bootstrap -/

lemma boot_events (evs : List RecvEvent) :
    sWifiConnectBackend (envEvents evs) = bootRecvPhase bcTrue evs reqStd := rfl

lemma envStd_events (resp : String) :
    envStd resp = envEvents [RecvEvent.dataBuf resp true] := rfl

lemma bootRecvPhase_data (resp : String) (req : String) :
    bootRecvPhase bcTrue [RecvEvent.dataBuf resp true] req =
      some (match parseResponse resp with
        | Except.error e =>
          { success := false, err := some e, connCreated := true, connClosed := true,
            connDeleted := true, connShutdown := false, request := some req, handed := none }
        | Except.ok bn =>
          { success := true, err := none, connCreated := true, connClosed := false,
            connDeleted := false, connShutdown := true, request := some req,
            handed := some bn }) := by
  cases hp : parseResponse resp with
  | error e => simp [bootRecvPhase, recvLoop, hp, bcTrue]
  | ok bn => simp [bootRecvPhase, recvLoop, hp, bcTrue]

/-- Behaviour of the would-block budget: k would-blocks with k within budget
just consume budget. -/
lemma recvLoop_wb_skip (bc : String → Nat → Bool) :
    ∀ (k t : Nat) (rest : List RecvEvent), k ≤ t →
      recvLoop bc (List.replicate k RecvEvent.wouldBlock ++ rest) t = recvLoop bc rest (t - k) := by
  intro k
  induction k with
  | zero => intro t rest h; simp
  | succ k ih =>
    intro t rest h
    cases t with
    | zero => omega
    | succ t =>
      rw [List.replicate_succ, List.cons_append]
      have hne : ¬ (t + 1 = 0) := by omega
      simp only [recvLoop, if_neg hne]
      have : t + 1 - 1 = t := rfl
      rw [this, ih t rest (by omega)]
      congr 1
      omega

/-- One would-block beyond the budget is the response timeout. -/
lemma recvLoop_wb_timeout (bc : String → Nat → Bool) :
    ∀ t : Nat, recvLoop bc (List.replicate (t + 1) RecvEvent.wouldBlock) t =
      some (some BErr.timeout, none) := by
  intro t
  induction t with
  | zero => rfl
  | succ t ih =>
    rw [List.replicate_succ]
    have hne : ¬ (t + 1 = 0) := by omega
    simp only [recvLoop, if_neg hne]
    have : t + 1 - 1 = t := rfl
    rw [this]
    exact ih

/-! ## Lemmas about the pump -/

lemma pumpRun_append_neutral :
    ∀ (pre : List PumpEvent), (∀ e ∈ pre, e.neutral = true) →
      ∀ (rest : List PumpEvent) (tr : List ProtoCall),
        pumpRun (pre ++ rest) tr = pumpRun rest (tr ++ neutralTrace pre) := by
  intro pre
  induction pre with
  | nil => intro _ rest tr; simp [neutralTrace]
  | cons e pre ih =>
    intro hall rest tr
    have he : e.neutral = true := hall e (List.mem_cons_self e pre)
    have hpre : ∀ x ∈ pre, PumpEvent.neutral x = true :=
      fun x hx => hall x (List.mem_cons_of_mem e hx)
    cases e with
    | notOkay => cases he
    | recvErr => cases he
    | netbufErr => cases he
    | wouldBlock =>
      rw [List.cons_append]
      simp only [pumpRun, neutralTrace]
      exact ih hpre rest tr
    | chunk v =>
      cases v with
      | okay =>
        rw [List.cons_append]
        simp only [pumpRun, neutralTrace]
        rw [ih hpre rest (tr ++ [ProtoCall.handleCall Verdict.okay])]
        simp
      | fail => cases he
      | reconnect => cases he

lemma getLast_append_one {α : Type} (l : List α) (x : α) :
    (l ++ [x]).getLast? = some x := by
  rw [List.getLast?_append_cons]
  rfl

/-! ## Lemmas about the URL decomposition and the request -/

lemma strMk_append (a b : List Char) : String.mk (a ++ b) = String.mk a ++ String.mk b := rfl

lemma reqParams_path_split {url : String} {parts : UrlParts}
    (h : reqParamsFromUrl url = some parts) (hq : parts.query ≠ "") :
    parts.path = pathBeforeQuery parts ++ "?" ++ parts.query ∧
      '?' ∉ (pathBeforeQuery parts).toList := by
  unfold reqParamsFromUrl at h
  split at h
  · cases h
  · rename_i https rest hsch
    dsimp only at h
    split at h
    · cases h
    · rw [Option.some_inj] at h
      subst h
      cases hsp : splitFirst '?' (authorityPath rest).2 with
      | none =>
        exfalso
        apply hq
        show queryOf (authorityPath rest).2 = ""
        unfold queryOf
        rw [hsp]
      | some p =>
        obtain ⟨hdec, hnot⟩ := splitFirst_eq hsp
        have hquery : queryOf (authorityPath rest).2 = String.mk p.2 := by
          unfold queryOf
          rw [hsp]
        have hbefore : pathBeforeQuery
            { host := String.mk (hostPortSplit https (authSplit (authorityPath rest).1).2).1,
              path := String.mk (authorityPath rest).2,
              query := queryOf (authorityPath rest).2,
              auth := (authSplit (authorityPath rest).1).1, https := https,
              port := (hostPortSplit https (authSplit (authorityPath rest).1).2).2 } =
            String.mk p.1 := by
          unfold pathBeforeQuery
          dsimp only
          rw [strMk_toList, hsp]
        constructor
        · dsimp only
          rw [hbefore, hquery, hdec]
          have hcons : p.1 ++ '?' :: p.2 = p.1 ++ ['?'] ++ p.2 := by simp
          rw [hcons, strMk_append, strMk_append]
        · rw [hbefore, strMk_toList]
          exact hnot

lemma bootRecvPhase_request {bc : String → Nat → Bool} {evs : List RecvEvent}
    {req0 : String} {r : BootstrapResult}
    (h : bootRecvPhase bc evs req0 = some r) : r.request = some req0 := by
  unfold bootRecvPhase at h
  split at h
  · cases h
  · rw [Option.some_inj] at h
    subst h
    rfl
  · rw [Option.some_inj] at h
    subst h
    rfl

lemma boot_request {env : BootstrapEnv} {parts : UrlParts} {r : BootstrapResult} {req : String}
    (hp : reqParamsFromUrl env.url = some parts)
    (hb : sWifiConnectBackend env = some r)
    (hr : r.request = some req) :
    req = mkRequest env.userAgent parts := by
  unfold sWifiConnectBackend at hb
  rw [hp] at hb
  dsimp only at hb
  split at hb
  · split at hb
    · split at hb
      · have := bootRecvPhase_request hb
        rw [this] at hr
        exact (Option.some_inj.mp hr).symm
      · rw [Option.some_inj] at hb
        subst hb
        simp only at hr
        exact (Option.some_inj.mp hr).symm
    · rw [Option.some_inj] at hb
      subst hb
      cases hr
  · rw [Option.some_inj] at hb
    subst hb
    cases hr

/-! ## Claim theorems -/

/-- C1: the claim states that every exit path from the CONNECTED state
closes and releases the TCP connection handle, so that after any transition
the supervisor owns zero live handles unless the target state is CONNECTED.
The code does not: sWifiHandleConnection contains no netconn call, and the
CONNECTED case of sWifiTask releases nothing either, so the handle stays
live across the CONNECTED-to-FAIL transition.  This theorem evaluates the
model at the failing input (pump exits because backendIsOkay is false): the
supervisor lands in FAIL still owning one live handle. -/
theorem wifi_c1_conn_leak :
    (wifiStep cfgA { stepEnvBase with pumpEvents := [PumpEvent.notOkay] }
        { state := WifiState.connected, lastFail := 0, connLive := 1 }).map
      (fun o => (o.sup.state, o.sup.connLive)) = some (WifiState.fail, 1) ∧
    WifiState.fail ≠ WifiState.connected := by
  exact ⟨rfl, by decide⟩

/-- C2: the claim states that whenever the bootstrap fails, any connection
handle it created is both closed and released before the FAIL transition.
On the TCP-connect-failure path (wifi.c lines 177-183) the code returns
false right after netconn_new without calling netconn_close or
netconn_delete: the supervisor reaches FAIL owning one live handle that was
neither closed nor deleted. -/
theorem wifi_c2_connectfail_leak :
    (wifiStep cfgA { stepEnvBase with benv := { envBase with connectOk := false } }
        { state := WifiState.online, lastFail := 0, connLive := 0 }).map
      (fun o => (o.sup.state, o.sup.connLive,
        o.boot.map (fun r => (r.connCreated, r.connClosed, r.connDeleted)))) =
      some (WifiState.fail, 1, some (true, false, false)) ∧
    WifiState.fail ≠ WifiState.connected := by
  exact ⟨rfl, by decide⟩

/-- C3: for every connection attempt that gets as far as writing the
request, the outbound HTTP request carries the assembled query string both
in the request line after a question mark and verbatim as the request body,
with the Content-Length header equal to the body length (here the
character count; all configured strings are ASCII). -/
theorem wifi_c3_request_duplication
    (env : BootstrapEnv) (parts : UrlParts) (r : BootstrapResult) (req : String)
    (hp : reqParamsFromUrl env.url = some parts)
    (hq : parts.query ≠ "")
    (hb : sWifiConnectBackend env = some r)
    (hr : r.request = some req) :
    req = "POST /" ++ pathBeforeQuery parts ++ "?" ++ parts.query ++ " HTTP/1.1\r\n" ++
      "Host: " ++ parts.host ++ "\r\n" ++
      "Authorization: Basic " ++ (parts.auth.getD "") ++ "\r\n" ++
      "User-Agent: " ++ env.userAgent ++ "\r\n" ++
      "Content-Length: " ++ toString parts.query.length ++ "\r\n" ++
      "\r\n" ++ parts.query ∧
    '?' ∉ (pathBeforeQuery parts).toList := by
  obtain ⟨hpath, hnot⟩ := reqParams_path_split hp hq
  have hreq := boot_request hp hb hr
  constructor
  · rw [hreq]
    unfold mkRequest
    rw [hpath]
    apply strEq_of_toList
    simp [strToList_append, List.append_assoc]
  · exact hnot

/-- C3 witness: the request of the concrete environment envC3w, whose URL
decomposes to partsStd with query "q=1". -/
theorem wifi_c3_request_duplication_witness :
    reqStd = "POST /" ++ pathBeforeQuery partsStd ++ "?" ++ partsStd.query ++ " HTTP/1.1\r\n" ++
      "Host: " ++ partsStd.host ++ "\r\n" ++
      "Authorization: Basic " ++ (partsStd.auth.getD "") ++ "\r\n" ++
      "User-Agent: " ++ envC3w.userAgent ++ "\r\n" ++
      "Content-Length: " ++ toString partsStd.query.length ++ "\r\n" ++
      "\r\n" ++ partsStd.query ∧
    '?' ∉ (pathBeforeQuery partsStd).toList :=
  wifi_c3_request_duplication envC3w partsStd rWriteFail reqStd rfl (by decide) rfl rfl

/-- C4 counterexample: the claim says the bootstrap fails on every response
whose first line does not begin with the 9-character prefix "HTTP/1.1 "
(trailing space included).  The code compares only 8 characters, so the
response respTab, whose ninth character is a tab, passes the check, parses
status 200 at offset 9 and the bootstrap succeeds. -/
theorem wifi_c4_counterexample :
    (sWifiConnectBackend (envStd respTab)).map (fun r => r.success) = some true ∧
    List.isPrefixOf "HTTP/1.1 ".toList respTab.toList = false := by
  exact ⟨rfl, rfl⟩

/-- C4 amended: the bootstrap rejects a delivered response as not-HTTP
exactly when the buffer holds no CRLF or its first 8 characters differ from
"HTTP/1.1" (8-character strncmp, the trailing space is not compared); when
that check passes, the status code is read by atoi at byte offset 9 and any
value other than 200 is fatal. -/
theorem wifi_c4_amended (resp : String) :
    ((sWifiConnectBackend (envStd resp)).map (fun r => r.err) = some (some BErr.notHttp) ↔
      (strstrIdx resp.toList crlfToks = none ∨ resp.toList.take 8 ≠ httpSig)) ∧
    (∀ i : Nat, strstrIdx resp.toList crlfToks = some i →
      resp.toList.take 8 = httpSig → atoiInt (resp.toList.drop 9) ≠ 200 →
      (sWifiConnectBackend (envStd resp)).map (fun r => r.err) =
        some (some BErr.badStatus)) := by
  have hboot : sWifiConnectBackend (envStd resp) =
      bootRecvPhase bcTrue [RecvEvent.dataBuf resp true] reqStd := by
    rw [envStd_events]
    exact boot_events _
  constructor
  · rw [hboot, bootRecvPhase_data]
    cases hp : parseResponse resp with
    | error e =>
      have hiff := parse_notHttp_iff resp
      rw [hp] at hiff
      simp only [Except.error.injEq] at hiff
      simp only [Option.map_some', Option.some_inj]
      simpa using hiff
    | ok bn =>
      simp only [Option.map_some', Option.some_inj]
      constructor
      · intro hcon
        cases hcon
      · intro hcon
        have := (parse_notHttp_iff resp).mpr hcon
        rw [hp] at this
        cases this
  · intro i hi h8 h200
    have hbs := parse_badStatus hi h8 h200
    rw [hboot, bootRecvPhase_data, hbs]
    rfl

/-- C4 witness: a delivered 404 response makes the bootstrap fail with the
bad-status error. -/
theorem wifi_c4_amended_witness :
    (sWifiConnectBackend (envStd respNF)).map (fun r => r.err) =
      some (some BErr.badStatus) :=
  (wifi_c4_amended respNF).2 15 rfl rfl (by decide)

/-- C5 counterexample: the claim says the handler receives the body prefix
that follows the header, hence the 11-byte frame of the happy-path
scenario.  The code hands the pointer returned by strstr, which is AT the
header terminator, so on the happy-path response the handler receives the
15-byte slice that still starts with CRLFCRLF. -/
theorem wifi_c5_counterexample :
    (sWifiConnectBackend (envStd respHappy)).map (fun r => r.handed) =
      some (some (bodyHappy, 15)) ∧
    bodyHappy ≠ "\x7b\"hello\":1\x7d" ∧ bodyHappy.length = 15 ∧
    ("\x7b\"hello\":1\x7d" : String).length = 11 := by
  exact ⟨rfl, by decide, rfl, rfl⟩

/-- C5 amended: whatever the bootstrap hands to backendConnect is the
suffix of the received buffer that starts at the CRLFCRLF header terminator
(terminator included), together with its length; the guard admits it only
when at least 10 bytes remain counting from the terminator. -/
theorem wifi_c5_amended (resp b : String) (n : Nat)
    (h : (sWifiConnectBackend (envStd resp)).map (fun r => r.handed) =
      some (some (b, n))) :
    n = b.length ∧ 10 ≤ b.length ∧ b.toList.take 4 = crlfCrlf ∧
      List.IsSuffix b.toList resp.toList := by
  have hboot : sWifiConnectBackend (envStd resp) =
      bootRecvPhase bcTrue [RecvEvent.dataBuf resp true] reqStd := by
    rw [envStd_events]
    exact boot_events _
  rw [hboot, bootRecvPhase_data] at h
  cases hp : parseResponse resp with
  | error e =>
    rw [hp] at h
    simp at h
  | ok bn =>
    rw [hp] at h
    simp only [Option.map_some', Option.some_inj] at h
    obtain ⟨b0, n0⟩ := bn
    simp only [Prod.mk.injEq] at h
    obtain ⟨hb, hn⟩ := h
    subst hb
    subst hn
    exact parse_ok_shape hp

/-- C5 witness: the happy-path response at the concrete input. -/
theorem wifi_c5_amended_witness :
    15 = bodyHappy.length ∧ 10 ≤ bodyHappy.length ∧
      bodyHappy.toList.take 4 = crlfCrlf ∧
      List.IsSuffix bodyHappy.toList respHappy.toList :=
  wifi_c5_amended respHappy bodyHappy 15 rfl

/-- C6 counterexample: the claim says FAIL entries separated by less than
the stable-connection threshold pick the slow wait and otherwise the short
one.  The code compares with strict greater-than, so two FAIL entries
separated by exactly the threshold (here 5 s: entries at 2000 ms and
7000 ms) pick the SLOW wait, where the claim demands reconnect_interval. -/
theorem wifi_c6_counterexample :
    (wifiStep cfgA (envFailAt 2000)
        { state := WifiState.fail, lastFail := 0, connLive := 0 }).map
      (fun o => (o.sup.state, o.sup.lastFail)) = some (WifiState.online, 2000) ∧
    (wifiStep cfgA envDnsFail
        { state := WifiState.online, lastFail := 2000, connLive := 0 }).map
      (fun o => (o.sup.state, o.sup.lastFail)) = some (WifiState.fail, 2000) ∧
    (wifiStep cfgA (envFailAt 7000)
        { state := WifiState.fail, lastFail := 2000, connLive := 0 }).map
      (fun o => (o.chosen, o.waitSecs)) =
      some (some Backoff.slow, some cfgA.reconnIntervalSlow) ∧
    7000 - 2000 = 1000 * cfgA.stableConnThrs ∧
    Backoff.slow ≠ Backoff.short := by
  exact ⟨rfl, rfl, rfl, by decide, by decide⟩

/-- C6 amended: on every entry to the FAIL state the supervisor compares
now minus the recorded last-fail time (uint32 subtraction) against 1000
times the stable-connection threshold: strictly more picks
reconnect_interval, otherwise (separation at most the threshold, equality
included) reconnect_interval_slow; the last-fail time is then set to now. -/
theorem wifi_c6_amended (cfg : BackendCfg) (env : StepEnv) (s : SupSt) (out : StepOut)
    (hs : s.state = WifiState.fail) (h : wifiStep cfg env s = some out) :
    out.chosen = some (if 1000 * cfg.stableConnThrs < u32sub env.now s.lastFail
      then Backoff.short else Backoff.slow) ∧
    out.waitSecs = some (if 1000 * cfg.stableConnThrs < u32sub env.now s.lastFail
      then cfg.reconnInterval else cfg.reconnIntervalSlow) ∧
    out.sup.lastFail = env.now := by
  obtain ⟨st, lf, cl⟩ := s
  simp only at hs
  subst hs
  unfold wifiStep at h
  rw [Option.some_inj] at h
  subst h
  exact ⟨rfl, rfl, rfl⟩

/-- C6 witness: a FAIL entry 9000 ms after the last one with a 5 s
threshold picks the short wait and records the new time. -/
theorem wifi_c6_amended_witness :
    (stepFail cfgA 9000 true { state := WifiState.fail, lastFail := 0, connLive := 0 }).chosen =
      some Backoff.short ∧
    (stepFail cfgA 9000 true { state := WifiState.fail, lastFail := 0, connLive := 0 }).waitSecs =
      some cfgA.reconnInterval ∧
    (stepFail cfgA 9000 true
      { state := WifiState.fail, lastFail := 0, connLive := 0 }).sup.lastFail = 9000 :=
  wifi_c6_amended cfgA (envFailAt 9000)
    { state := WifiState.fail, lastFail := 0, connLive := 0 }
    (stepFail cfgA 9000 true { state := WifiState.fail, lastFail := 0, connLive := 0 })
    rfl rfl

/-- C7: during the bootstrap header wait, any run of at most 500 would-block
polls followed by a complete valid response still succeeds, and a run of
501 would-block polls is fatal as the response timeout. -/
theorem wifi_c7_patience (k : Nat) (hk : k ≤ 500) :
    (sWifiConnectBackend (envEvents (List.replicate k RecvEvent.wouldBlock ++
        [RecvEvent.dataBuf respHappy true]))).map (fun r => (r.success, r.err)) =
      some (true, none) ∧
    (sWifiConnectBackend (envEvents (List.replicate 501 RecvEvent.wouldBlock))).map
        (fun r => (r.success, r.err)) = some (false, some BErr.timeout) := by
  constructor
  · rw [boot_events]
    have h2 : recvLoop bcTrue (List.replicate k RecvEvent.wouldBlock ++
        [RecvEvent.dataBuf respHappy true]) 500 = some (none, some (bodyHappy, 15)) := by
      rw [recvLoop_wb_skip bcTrue k 500 _ hk]
      rfl
    unfold bootRecvPhase
    rw [h2]
    rfl
  · rw [boot_events]
    have h3 : recvLoop bcTrue (List.replicate 501 RecvEvent.wouldBlock) 500 =
        some (some BErr.timeout, none) := by
      have h4 := recvLoop_wb_timeout bcTrue 500
      norm_num at h4
      exact h4
    unfold bootRecvPhase
    rw [h3]
    rfl

/-- C7 witness: 400 would-block polls then the happy-path response succeed;
501 would-block polls time out. -/
theorem wifi_c7_patience_witness :
    (sWifiConnectBackend (envEvents (List.replicate 400 RecvEvent.wouldBlock ++
        [RecvEvent.dataBuf respHappy true]))).map (fun r => (r.success, r.err)) =
      some (true, none) ∧
    (sWifiConnectBackend (envEvents (List.replicate 501 RecvEvent.wouldBlock))).map
        (fun r => (r.success, r.err)) = some (false, some BErr.timeout) :=
  wifi_c7_patience 400 (by norm_num)

/-- C8: whenever the pump loop exits after a run of neutral iterations
(would-block polls and OKAY chunks) ended by a decisive event, the last
protocol-handler call is disconnect, and the returned verdict drives the
supervisor: verdict true (a RECONNECT chunk) moves CONNECTED to ONLINE when
the link is still up and to OFFLINE otherwise, while verdict false (a FAIL
chunk, a read error, a netbuf failure, or backendIsOkay false) moves
CONNECTED to FAIL. -/
theorem wifi_c8_pump (cfg : BackendCfg) (env : StepEnv) (s : SupSt)
    (pre : List PumpEvent) (ev : PumpEvent) (r : Bool) (calls : List ProtoCall)
    (hpre : ∀ e ∈ pre, e.neutral = true) (hev : ev.neutral = false)
    (hs : s.state = WifiState.connected) (hevs : env.pumpEvents = pre ++ [ev])
    (hrun : sWifiHandleConnection env.pumpEvents = some (r, calls)) :
    calls.getLast? = some ProtoCall.disconnectCall ∧
    (wifiStep cfg env s).map (fun o => o.sup.state) =
      some (if r then (if env.linkOnline then WifiState.online else WifiState.offline)
        else WifiState.fail) ∧
    (ev = PumpEvent.chunk Verdict.reconnect → r = true) ∧
    ((ev = PumpEvent.chunk Verdict.fail ∨ ev = PumpEvent.recvErr ∨
      ev = PumpEvent.notOkay ∨ ev = PumpEvent.netbufErr) → r = false) := by
  have hstep : (wifiStep cfg env s).map (fun o => o.sup.state) =
      some (if r then (if env.linkOnline then WifiState.online else WifiState.offline)
        else WifiState.fail) := by
    obtain ⟨st, lf, cl⟩ := s
    simp only at hs
    subst hs
    unfold wifiStep
    rw [hrun]
    rfl
  have hrun2 : pumpRun [ev] (neutralTrace pre) = some (r, calls) := by
    unfold sWifiHandleConnection at hrun
    rw [hevs, pumpRun_append_neutral pre hpre [ev] [], List.nil_append] at hrun
    exact hrun
  cases ev with
  | wouldBlock => simp [PumpEvent.neutral] at hev
  | notOkay =>
    simp only [pumpRun] at hrun2
    rw [Option.some_inj] at hrun2
    injection hrun2 with h1 h2
    subst h1
    subst h2
    refine ⟨?_, hstep, ?_, ?_⟩
    · rw [List.getLast?_append_cons]
      rfl
    · intro hcon; exact absurd hcon (by decide)
    · intro _; rfl
  | recvErr =>
    simp only [pumpRun] at hrun2
    rw [Option.some_inj] at hrun2
    injection hrun2 with h1 h2
    subst h1
    subst h2
    refine ⟨?_, hstep, ?_, ?_⟩
    · rw [List.getLast?_append_cons]
      rfl
    · intro hcon; exact absurd hcon (by decide)
    · intro _; rfl
  | netbufErr =>
    simp only [pumpRun] at hrun2
    rw [Option.some_inj] at hrun2
    injection hrun2 with h1 h2
    subst h1
    subst h2
    refine ⟨?_, hstep, ?_, ?_⟩
    · rw [List.getLast?_append_cons]
      rfl
    · intro hcon; exact absurd hcon (by decide)
    · intro _; rfl
  | chunk v =>
    cases v with
    | okay => simp [PumpEvent.neutral] at hev
    | fail =>
      simp only [pumpRun] at hrun2
      rw [Option.some_inj] at hrun2
      injection hrun2 with h1 h2
      subst h1
      subst h2
      refine ⟨?_, hstep, ?_, ?_⟩
      · rw [List.getLast?_append_cons]
        rfl
      · intro hcon; exact absurd hcon (by decide)
      · intro _; rfl
    | reconnect =>
      simp only [pumpRun] at hrun2
      rw [Option.some_inj] at hrun2
      injection hrun2 with h1 h2
      subst h1
      subst h2
      refine ⟨?_, hstep, ?_, ?_⟩
      · rw [List.getLast?_append_cons]
        rfl
      · intro _; rfl
      · intro hcon
        rcases hcon with h | h | h | h <;> exact absurd h (by decide)

/-- C8 witness: two neutral iterations then a RECONNECT chunk, link still
up: the trace ends with disconnect and CONNECTED moves to ONLINE. -/
theorem wifi_c8_pump_witness :
    ([ProtoCall.handleCall Verdict.okay, ProtoCall.handleCall Verdict.reconnect,
      ProtoCall.disconnectCall] : List ProtoCall).getLast? =
        some ProtoCall.disconnectCall ∧
    (wifiStep cfgA { stepEnvBase with pumpEvents := [PumpEvent.wouldBlock,
        PumpEvent.chunk Verdict.okay, PumpEvent.chunk Verdict.reconnect] }
      { state := WifiState.connected, lastFail := 0, connLive := 1 }).map
        (fun o => o.sup.state) = some WifiState.online ∧
    (PumpEvent.chunk Verdict.reconnect = PumpEvent.chunk Verdict.reconnect →
      true = true) ∧
    ((PumpEvent.chunk Verdict.reconnect = PumpEvent.chunk Verdict.fail ∨
      PumpEvent.chunk Verdict.reconnect = PumpEvent.recvErr ∨
      PumpEvent.chunk Verdict.reconnect = PumpEvent.notOkay ∨
      PumpEvent.chunk Verdict.reconnect = PumpEvent.netbufErr) → true = false) :=
  wifi_c8_pump cfgA
    { stepEnvBase with pumpEvents := [PumpEvent.wouldBlock,
        PumpEvent.chunk Verdict.okay, PumpEvent.chunk Verdict.reconnect] }
    { state := WifiState.connected, lastFail := 0, connLive := 1 }
    [PumpEvent.wouldBlock, PumpEvent.chunk Verdict.okay]
    (PumpEvent.chunk Verdict.reconnect) true
    [ProtoCall.handleCall Verdict.okay, ProtoCall.handleCall Verdict.reconnect,
      ProtoCall.disconnectCall]
    (by decide) rfl rfl rfl rfl

/-- C9 counterexample: the claim says the ABORT cue and UPDATE LED are side
effects of the OFFLINE-to-ONLINE transition only, and that the
OFFLINE-to-FAIL transition on link timeout emits no indicator.  In the code
both are emitted on entry to the OFFLINE body, before the station wait, so
a run whose wait times out still emits them and then lands in FAIL. -/
theorem wifi_c9_counterexample :
    (wifiStep cfgA { stepEnvBase with waitOk := false } initSup).map
      (fun o => (o.sup.state, o.signals)) =
      some (WifiState.fail, [Signal.noise Noise.abort, Signal.led Led.update]) ∧
    ([Signal.noise Noise.abort, Signal.led Led.update] : List Signal) ≠ [] := by
  exact ⟨rfl, by decide⟩

/-- C9 amended: the ABORT cue and UPDATE LED are emitted on entry to the
OFFLINE state body, before the station wait, so they accompany both
transitions out of OFFLINE (to ONLINE and to FAIL); no other state body
emits either signal. -/
theorem wifi_c9_amended (cfg : BackendCfg) (env : StepEnv) (s : SupSt) (out : StepOut)
    (h : wifiStep cfg env s = some out) :
    (s.state = WifiState.offline →
      out.signals = [Signal.noise Noise.abort, Signal.led Led.update]) ∧
    (s.state ≠ WifiState.offline →
      Signal.noise Noise.abort ∉ out.signals ∧ Signal.led Led.update ∉ out.signals) := by
  obtain ⟨st, lf, cl⟩ := s
  cases st with
  | offline =>
    unfold wifiStep at h
    rw [Option.some_inj] at h
    subst h
    constructor
    · intro _
      rfl
    · intro hne
      exact absurd rfl hne
  | online =>
    constructor
    · intro hcon
      simp at hcon
    · intro _
      unfold wifiStep at h
      cases hb : sWifiConnectBackend env.benv with
      | none =>
        rw [hb] at h
        cases h
      | some rr =>
        rw [hb] at h
        simp only [Option.map_some', Option.some_inj] at h
        subst h
        constructor <;> simp [stepOnline]
  | connected =>
    constructor
    · intro hcon
      simp at hcon
    · intro _
      unfold wifiStep at h
      cases hb : sWifiHandleConnection env.pumpEvents with
      | none =>
        rw [hb] at h
        cases h
      | some pr =>
        rw [hb] at h
        simp only [Option.map_some', Option.some_inj] at h
        subst h
        constructor <;> simp [stepConnected]
  | fail =>
    constructor
    · intro hcon
      simp at hcon
    · intro _
      unfold wifiStep at h
      rw [Option.some_inj] at h
      subst h
      constructor <;>
        simp [stepFail, List.mem_append, List.mem_cons, List.mem_replicate]

/-- C9 witness: the OFFLINE body emits exactly the ABORT cue and the UPDATE
LED (shown here on the run whose station wait fails). -/
theorem wifi_c9_amended_witness :
    (stepOffline false initSup).signals =
      [Signal.noise Noise.abort, Signal.led Led.update] :=
  (wifi_c9_amended cfgA { stepEnvBase with waitOk := false } initSup
    (stepOffline false initSup) rfl).1 rfl

/-- C10: on the very first FAIL entry after boot the static last-fail time
is still its zero initialisation, so once more than the stable-connection
threshold of milliseconds has elapsed since boot, the short backoff
reconnect_interval is chosen although no connection ever existed. -/
theorem wifi_c10_first_fail (cfg : BackendCfg) (env : StepEnv) (c : Nat)
    (hlt : env.now < u32) (hthr : 1000 * cfg.stableConnThrs < env.now) :
    (wifiStep cfg env { state := WifiState.fail, lastFail := initSup.lastFail, connLive := c }).map
      (fun o => (o.chosen, o.waitSecs)) =
      some (some Backoff.short, some cfg.reconnInterval) := by
  have hlt2 : env.now < 4294967296 := hlt
  have hz : u32sub env.now initSup.lastFail = env.now := by
    show u32sub env.now 0 = env.now
    unfold u32sub u32
    omega
  unfold wifiStep stepFail
  dsimp only
  rw [hz]
  simp [hthr]

/-- C10 witness: boot-time last-fail zero, first FAIL entry at 6000 ms with
a 5 s threshold: the short wait is chosen. -/
theorem wifi_c10_first_fail_witness :
    (wifiStep cfgA (envFailAt 6000)
        { state := WifiState.fail, lastFail := initSup.lastFail, connLive := 0 }).map
      (fun o => (o.chosen, o.waitSecs)) =
      some (some Backoff.short, some cfgA.reconnInterval) :=
  wifi_c10_first_fail cfgA (envFailAt 6000) 0 (by decide) (by decide)
